import Mathlib

/-
Verification of the command-interpretation and state-mutation core of a
console todo-list application. JavaScript strings are modelled as lists of
characters (`Str`); ISO timestamp values are abstract strings supplied
explicitly through a `now` parameter; exceptions are modelled with
`Except`; the in-place mutation of the application state is modelled by
explicit state passing.
-/

namespace TodoApp

abbrev Str := List Char

instance {ε α : Type} [DecidableEq ε] [DecidableEq α] : DecidableEq (Except ε α) := fun x y =>
  match x, y with
  | .ok a, .ok b =>
    if h : a = b then .isTrue (by rw [h])
    else .isFalse (by intro hc; cases hc; exact h rfl)
  | .error a, .error b =>
    if h : a = b then .isTrue (by rw [h])
    else .isFalse (by intro hc; cases hc; exact h rfl)
  | .ok _, .error _ => .isFalse (by intro hc; cases hc)
  | .error _, .ok _ => .isFalse (by intro hc; cases hc)

/-- The whitespace class `\s` (and `String.prototype.trim`'s notion of
whitespace), restricted to the ASCII whitespace characters. -/
def isSpaceChar (c : Char) : Bool :=
  c = ' ' || c = '\t' || c = '\n' || c = '\r' || c = '\x0b' || c = '\x0c'

/-- Characters matched by the regex metacharacter `.`: anything except a
line terminator. -/
def isDotChar (c : Char) : Bool :=
  !(c = '\n' || c = '\r' || c = '\u2028' || c = '\u2029')

def isDigitChar (c : Char) : Bool := '0' ≤ c && c ≤ '9'

/-- Models `String.prototype.trim`: remove leading and trailing whitespace. -/
def trimStr (s : Str) : Str :=
  ((s.dropWhile isSpaceChar).reverse.dropWhile isSpaceChar).reverse

/-- Models `String.prototype.toLowerCase` on the ASCII range. -/
def toLowerStr (s : Str) : Str := s.map Char.toLower

/-- Models `parseInt(tok, 10)` on a token captured by `\d+` (all digits). -/
def parseDigits (s : Str) : Nat :=
  s.foldl (fun n c => n * 10 + (c.toNat - '0'.toNat)) 0

/-- Models the JavaScript `errors.join` with separator `; `. -/
def joinErrors (es : List Str) : Str := (es.intersperse ("; ".data)).flatten

def natToStr (n : Nat) : Str := (toString n).data

/- ------------------------------------------------------------------ -/
/- Item Model: todo_class (src/unnamed/part_003)                       -/
/- ------------------------------------------------------------------ -/

structure Todo where
  id : Nat
  title : Str
  completed : Bool
  createdAt : Str
  updatedAt : Str
deriving DecidableEq

/-- The `Todo` constructor: trims the title; `createdAt || new
Date().toISOString()` defaults a null/empty timestamp to the current
time (`none` models JavaScript `null`/`undefined`, `[]` an empty string:
both are falsy). -/
def Todo.make (id : Nat) (title : Str) (completed : Bool)
    (createdAt? updatedAt? : Option Str) (now : Str) : Todo :=
  { id := id
    title := trimStr title
    completed := completed
    createdAt := if createdAt?.getD [] = [] then now else createdAt?.getD []
    updatedAt := if updatedAt?.getD [] = [] then now else updatedAt?.getD [] }

def Todo.complete (t : Todo) (now : Str) : Todo :=
  { t with completed := true, updatedAt := now }

def Todo.uncomplete (t : Todo) (now : Str) : Todo :=
  { t with completed := false, updatedAt := now }

def Todo.toggle (t : Todo) (now : Str) : Todo :=
  { t with completed := !t.completed, updatedAt := now }

/-- Models `Todo.updateTitle`: throws when the new title is falsy or
empty after trimming. -/
def Todo.updateTitle (t : Todo) (newTitle : Str) (now : Str) : Except Str Todo :=
  if trimStr newTitle = [] then .error ("Todo title cannot be empty".data)
  else .ok { t with title := trimStr newTitle, updatedAt := now }

/-- Plain-object form of a todo, as produced by `Todo.toJSON`. -/
structure TodoObj where
  id : Nat
  title : Str
  completed : Bool
  createdAt : Str
  updatedAt : Str
deriving DecidableEq

def Todo.toJSON (t : Todo) : TodoObj :=
  { id := t.id, title := t.title, completed := t.completed
    createdAt := t.createdAt, updatedAt := t.updatedAt }

/-- Models `Todo.fromObject`: feeds the stored fields back through the
constructor. -/
def Todo.fromObject (o : TodoObj) (now : Str) : Todo :=
  Todo.make o.id o.title o.completed (some o.createdAt) (some o.updatedAt) now

/- ------------------------------------------------------------------ -/
/- State Container: AppState (src/app_state.js)                        -/
/- ------------------------------------------------------------------ -/

structure AppState where
  todos : List Todo
  nextId : Nat
  currentView : Str
deriving DecidableEq

/-- Models `new AppState([], 1, 'all')` (the constructor defaults). -/
def initialAppState : AppState :=
  { todos := [], nextId := 1, currentView := "all".data }

/-- Models `AppState.addTodo`: push, then advance `nextId` when the inserted id
reaches it. -/
def AppState.addTodo (s : AppState) (t : Todo) : AppState :=
  { s with todos := s.todos ++ [t]
           nextId := if s.nextId ≤ t.id then t.id + 1 else s.nextId }

/-- Models `AppState.findTodoById`: first match by id equality (`null` becomes
`none`). -/
def AppState.findTodoById (s : AppState) (id : Nat) : Option Todo :=
  s.todos.find? (fun t => t.id == id)

/-- Overwrite the first element whose id matches `t'.id`; reports whether
a match was found. Models `findIndex` followed by an indexed write. -/
def replaceFirstById (t' : Todo) : List Todo → Bool × List Todo
  | [] => (false, [])
  | t :: rest =>
    if t.id == t'.id then (true, t' :: rest)
    else ((replaceFirstById t' rest).1, t :: (replaceFirstById t' rest).2)

/-- Models `AppState.updateTodo`. -/
def AppState.updateTodo (s : AppState) (t' : Todo) : Bool × AppState :=
  let r := replaceFirstById t' s.todos
  (r.1, { s with todos := r.2 })

/-- Models `AppState.removeTodo`: keeps the todos whose id differs, and reports
whether the list shrank. -/
def AppState.removeTodo (s : AppState) (id : Nat) : Bool × AppState :=
  let ts := s.todos.filter (fun t => t.id != id)
  (decide (ts.length < s.todos.length), { s with todos := ts })

/-- Models `AppState.getFilteredTodos`: switch on `currentView` with `all` as
the default branch. -/
def AppState.getFilteredTodos (s : AppState) : List Todo :=
  if s.currentView = "active".data then s.todos.filter (fun t => !t.completed)
  else if s.currentView = "completed".data then s.todos.filter (fun t => t.completed)
  else s.todos

def validViews : List Str := ["all".data, "active".data, "completed".data]

/-- Models `AppState.setCurrentView`: throws unless the view is one of
`all`/`active`/`completed`. -/
def AppState.setCurrentView (s : AppState) (view : Str) : Except Str AppState :=
  if validViews.contains view then .ok { s with currentView := view }
  else .error ("Invalid view: ".data ++ view ++
    ". Must be 'all', 'active', or 'completed'".data)

/-- Plain-object snapshot form of the state, as produced by
`AppState.toJSON`. -/
structure StateObj where
  todos : List TodoObj
  nextId : Nat
  currentView : Str
deriving DecidableEq

def AppState.toJSON (s : AppState) : StateObj :=
  { todos := s.todos.map Todo.toJSON, nextId := s.nextId, currentView := s.currentView }

/-- Models `AppState.fromObject`: rebuilds todos through `Todo.fromObject` and
coerces falsy fields (`nextId || 1`, `currentView || 'all'`). -/
def AppState.fromObject (o : StateObj) (now : Str) : AppState :=
  { todos := o.todos.map (fun x => Todo.fromObject x now)
    nextId := if o.nextId = 0 then 1 else o.nextId
    currentView := if o.currentView = [] then "all".data else o.currentView }

/- ------------------------------------------------------------------ -/
/- Validation utilities (validation_utils)                             -/
/- ------------------------------------------------------------------ -/

/-- Models `validateTodoInput`: the list of error strings for a title (valid
iff empty). The 255-character bound is checked on the untrimmed title. -/
def validateTodoInput (title : Str) : List Str :=
  (if trimStr title = [] then ["Todo title cannot be empty".data] else []) ++
  (if 255 < title.length then ["Todo title is too long (max 255 characters)".data] else [])

/-- Models `validateTodoId` (ids reaching it are integers captured by `\d+`,
so only the positivity check can fail). -/
def validateTodoId (id : Nat) : List Str :=
  if id < 1 then ["Todo ID must be a positive integer".data] else []

/- ------------------------------------------------------------------ -/
/- Operation handlers                                                  -/
/- ------------------------------------------------------------------ -/

/-- The persistence callback `save(state)`, which may return a boolean or
throw. -/
abbrev SaveFn := AppState → Except Str Bool

/-- The shared save-attempt block: `saveSuccess` stays `false` when no
save function was supplied or the save threw (the thrown error is only
logged as a warning). -/
def runSave (save : Option SaveFn) (s : AppState) : Bool :=
  match save with
  | none => false
  | some f =>
    match f s with
    | .ok b => b
    | .error _ => false

def notFoundMsg (id : Nat) : Str :=
  "Todo with ID ".data ++ natToStr id ++ " not found".data

def markedMsg (title status : Str) : Str :=
  "Todo \"".data ++ title ++ "\" marked as ".data ++ status

structure AddResult where
  todo : Todo
  nextId : Nat
  todosCount : Nat
deriving DecidableEq

/-- Models `addTodo` (src/unnamed/part_001): validate the title, build a
`Todo` at `nextId`, insert it. -/
def addTodo (s : AppState) (title : Str) (now : Str) : Except Str (AddResult × AppState) :=
  if validateTodoInput title ≠ [] then .error (joinErrors (validateTodoInput title))
  else
    let newTodo := Todo.make s.nextId (trimStr title) false none none now
    let s' := AppState.addTodo s newTodo
    .ok ({ todo := newTodo, nextId := s'.nextId, todosCount := s'.todos.length }, s')

structure AddPResult where
  todo : Todo
  nextId : Nat
  todosCount : Nat
  saveSuccess : Bool
deriving DecidableEq

/-- Models `addTodoWithPersistence`: the same mutation followed by a
best-effort save. -/
def addTodoWithPersistence (s : AppState) (title : Str) (save : Option SaveFn)
    (now : Str) : Except Str (AddPResult × AppState) :=
  if validateTodoInput title ≠ [] then .error (joinErrors (validateTodoInput title))
  else
    let newTodo := Todo.make s.nextId (trimStr title) false none none now
    let s' := AppState.addTodo s newTodo
    .ok ({ todo := newTodo, nextId := s'.nextId, todosCount := s'.todos.length,
           saveSuccess := runSave save s' }, s')

structure OpResult where
  todo : Todo
  message : Str
deriving DecidableEq

/-- Models `completeTodo` (src/complete_todo.js). -/
def completeTodo (s : AppState) (id : Nat) (now : Str) : Except Str (OpResult × AppState) :=
  if validateTodoId id ≠ [] then .error (joinErrors (validateTodoId id))
  else
    match AppState.findTodoById s id with
    | none => .error (notFoundMsg id)
    | some todo =>
      let t' := Todo.complete todo now
      let s' := (AppState.updateTodo s t').2
      .ok ({ todo := t', message := markedMsg t'.title ("complete".data) }, s')

/-- Models `incompleteTodo`. -/
def incompleteTodo (s : AppState) (id : Nat) (now : Str) : Except Str (OpResult × AppState) :=
  if validateTodoId id ≠ [] then .error (joinErrors (validateTodoId id))
  else
    match AppState.findTodoById s id with
    | none => .error (notFoundMsg id)
    | some todo =>
      let t' := Todo.uncomplete todo now
      let s' := (AppState.updateTodo s t').2
      .ok ({ todo := t', message := markedMsg t'.title ("incomplete".data) }, s')

/-- Models `toggleTodo` (the message reports the state after the flip). -/
def toggleTodo (s : AppState) (id : Nat) (now : Str) : Except Str (OpResult × AppState) :=
  if validateTodoId id ≠ [] then .error (joinErrors (validateTodoId id))
  else
    match AppState.findTodoById s id with
    | none => .error (notFoundMsg id)
    | some todo =>
      let wasCompleted := todo.completed
      let t' := Todo.toggle todo now
      let s' := (AppState.updateTodo s t').2
      .ok ({ todo := t'
             message := markedMsg t'.title
               (if wasCompleted then "incomplete".data else "complete".data) }, s')

structure OpPResult where
  todo : Todo
  message : Str
  saveSuccess : Bool
deriving DecidableEq

/-- Models `completeTodoWithPersistence`. -/
def completeTodoWithPersistence (s : AppState) (id : Nat) (save : Option SaveFn)
    (now : Str) : Except Str (OpPResult × AppState) :=
  match completeTodo s id now with
  | .error e => .error e
  | .ok (r, s') =>
    .ok ({ todo := r.todo, message := r.message, saveSuccess := runSave save s' }, s')

/-- Models `incompleteTodoWithPersistence`. -/
def incompleteTodoWithPersistence (s : AppState) (id : Nat) (save : Option SaveFn)
    (now : Str) : Except Str (OpPResult × AppState) :=
  match incompleteTodo s id now with
  | .error e => .error e
  | .ok (r, s') =>
    .ok ({ todo := r.todo, message := r.message, saveSuccess := runSave save s' }, s')

/-- Models `toggleTodoWithPersistence`. -/
def toggleTodoWithPersistence (s : AppState) (id : Nat) (save : Option SaveFn)
    (now : Str) : Except Str (OpPResult × AppState) :=
  match toggleTodo s id now with
  | .error e => .error e
  | .ok (r, s') =>
    .ok ({ todo := r.todo, message := r.message, saveSuccess := runSave save s' }, s')

structure EditResult where
  todo : Todo
  oldTitle : Str
  message : Str
deriving DecidableEq

def editMsg (oldTitle newTitle : Str) : Str :=
  "Todo updated: \"".data ++ oldTitle ++ "\" -> \"".data ++ newTitle ++ "\"".data

/-- Models `editTodo` (src/edit_todo.js): validate id and title, find the
todo, retitle it in place. -/
def editTodo (s : AppState) (id : Nat) (newTitle : Str) (now : Str) :
    Except Str (EditResult × AppState) :=
  if validateTodoId id ≠ [] then .error (joinErrors (validateTodoId id))
  else if validateTodoInput newTitle ≠ [] then .error (joinErrors (validateTodoInput newTitle))
  else
    match AppState.findTodoById s id with
    | none => .error (notFoundMsg id)
    | some todo =>
      let oldTitle := todo.title
      match Todo.updateTitle todo newTitle now with
      | .error e => .error e
      | .ok t' =>
        let s' := (AppState.updateTodo s t').2
        .ok ({ todo := t', oldTitle := oldTitle, message := editMsg oldTitle t'.title }, s')

structure EditPResult where
  todo : Todo
  oldTitle : Str
  message : Str
  saveSuccess : Bool
deriving DecidableEq

/-- Models `editTodoWithPersistence`. -/
def editTodoWithPersistence (s : AppState) (id : Nat) (newTitle : Str)
    (save : Option SaveFn) (now : Str) : Except Str (EditPResult × AppState) :=
  match editTodo s id newTitle now with
  | .error e => .error e
  | .ok (r, s') =>
    .ok ({ todo := r.todo, oldTitle := r.oldTitle, message := r.message,
           saveSuccess := runSave save s' }, s')

/-- Models `deleteTodo` (src/delete_todo.js). -/
def deleteTodo (s : AppState) (id : Nat) : Except Str (OpResult × AppState) :=
  if validateTodoId id ≠ [] then .error (joinErrors (validateTodoId id))
  else
    match AppState.findTodoById s id with
    | none => .error (notFoundMsg id)
    | some todo =>
      let r := AppState.removeTodo s id
      if !r.1 then .error ("Failed to remove todo with ID ".data ++ natToStr id)
      else
        .ok ({ todo := todo
               message := "Todo \"".data ++ todo.title ++ "\" deleted successfully".data },
             r.2)

/-- Models `deleteTodoWithPersistence`. -/
def deleteTodoWithPersistence (s : AppState) (id : Nat) (save : Option SaveFn) :
    Except Str (OpPResult × AppState) :=
  match deleteTodo s id with
  | .error e => .error e
  | .ok (r, s') =>
    .ok ({ todo := r.todo, message := r.message, saveSuccess := runSave save s' }, s')

structure MultiDeleteResult where
  totalDeleted : Nat
  totalErrors : Nat
  saveSuccess : Bool
deriving DecidableEq

/-- Models `deleteMultipleTodosWithPersistence`: delete each id (errors
collected, not propagated), then save once when anything was deleted. -/
def deleteMultipleTodosWithPersistence (s : AppState) (ids : List Nat)
    (save : Option SaveFn) : MultiDeleteResult × AppState :=
  let step := fun (acc : Nat × Nat × AppState) (id : Nat) =>
    match deleteTodoWithPersistence acc.2.2 id none with
    | .ok (_, s') => (acc.1 + 1, acc.2.1, s')
    | .error _ => (acc.1, acc.2.1 + 1, acc.2.2)
  let acc := ids.foldl step (0, 0, s)
  ({ totalDeleted := acc.1, totalErrors := acc.2.1,
     saveSuccess := if 0 < acc.1 then runSave save acc.2.2 else false }, acc.2.2)

structure ClearResult where
  clearedTodos : List Todo
  count : Nat
  message : Str
  saveSuccess : Bool
deriving DecidableEq

/-- Models `clearCompletedTodosWithPersistence` (src/clear_completed.js). -/
def clearCompletedTodosWithPersistence (s : AppState) (save : Option SaveFn) :
    ClearResult × AppState :=
  let completedTodos := s.todos.filter (fun t => t.completed)
  if completedTodos = [] then
    ({ clearedTodos := [], count := 0, message := "No completed todos to clear".data,
       saveSuccess := false }, s)
  else
    let completedIds := completedTodos.map Todo.id
    let r := deleteMultipleTodosWithPersistence s completedIds save
    ({ clearedTodos := completedTodos, count := completedTodos.length
       message := natToStr completedTodos.length ++ " completed todo(s) cleared".data
       saveSuccess := r.1.saveSuccess }, r.2)

/-- Models `listTodos` (src/list_todos.js): validates the filter, sets the
current view, and returns the filtered todos. -/
def listTodos (s : AppState) (filter : Str) : Except Str (List Todo × AppState) :=
  if !(validViews.contains filter) then
    .error ("Filter must be \"all\", \"active\", or \"completed\"".data)
  else
    match AppState.setCurrentView s filter with
    | .error e => .error e
    | .ok s' => .ok (AppState.getFilteredTodos s', s')

structure TodoStats where
  total : Nat
  active : Nat
  completed : Nat
  completedPercentage : Nat
deriving DecidableEq

/-- Models `getTodoStats`; `Math.round(completed / total * 100)` is the
exact half-up rounding `(200 * completed + total) / (2 * total)`. -/
def getTodoStats (s : AppState) : TodoStats :=
  let total := s.todos.length
  let active := (s.todos.filter (fun t => !t.completed)).length
  let completed := (s.todos.filter (fun t => t.completed)).length
  { total := total, active := active, completed := completed
    completedPercentage := if 0 < total then (200 * completed + total) / (2 * total) else 0 }

/-- Substring test, models `String.prototype.includes`. -/
def strIncludes (hay needle : Str) : Bool :=
  match hay with
  | [] => needle == []
  | _ :: t => needle.isPrefixOf hay || strIncludes t needle

/-- Models `searchTodos`: filter first, then case-insensitive substring
match on the title. -/
def searchTodos (s : AppState) (searchTerm : Str) (filter : Str) :
    Except Str (List Todo × AppState) :=
  if !(validViews.contains filter) then
    .error ("Filter must be \"all\", \"active\", or \"completed\"".data)
  else
    match listTodos s filter with
    | .error e => .error e
    | .ok (ts, s') =>
      .ok (ts.filter (fun t => strIncludes (toLowerStr t.title) (toLowerStr searchTerm)), s')

/-- Sort-key values produced by the comparator in `sortTodos`. Dates are
ISO-8601 strings of a fixed format, for which the chronological order of
`new Date(a) > new Date(b)` coincides with lexicographic string order. -/
inductive SortVal where
  | num (n : Nat)
  | str (s : Str)
  | bool (b : Bool)
deriving DecidableEq

/-- Lexicographic order on strings (JavaScript `<` on strings). -/
def strLt : Str → Str → Bool
  | [], [] => false
  | [], _ :: _ => true
  | _ :: _, [] => false
  | a :: as, b :: bs => a < b || (a == b && strLt as bs)

/-- Models the JavaScript `valueA < valueB` used by the comparator (both
values always have the same shape for a given sort key). -/
def svLt : SortVal → SortVal → Bool
  | .num a, .num b => a < b
  | .str a, .str b => strLt a b
  | .bool a, .bool b => !a && b
  | _, _ => false

/-- Extracts the comparison value for a sort key: strings are lowercased,
dates compared as dates (modelled lexicographically on the ISO strings). -/
def sortValOf (sortBy : Str) (t : Todo) : SortVal :=
  if sortBy = "id".data then .num t.id
  else if sortBy = "createdAt".data then .str t.createdAt
  else if sortBy = "updatedAt".data then .str t.updatedAt
  else if sortBy = "completed".data then .bool t.completed
  else .str (toLowerStr t.title)

def validSortKeys : List Str :=
  ["id".data, "title".data, "createdAt".data, "updatedAt".data, "completed".data]

/-- Models `sortTodos`: validates the key, lists with the filter, then
stable-sorts by the comparator. -/
def sortTodos (s : AppState) (sortBy : Str) (ascending : Bool) (filter : Str) :
    Except Str (List Todo × AppState) :=
  if !(validSortKeys.contains sortBy) then
    .error ("Sort by must be one of: id, title, createdAt, updatedAt, completed".data)
  else
    match listTodos s filter with
    | .error e => .error e
    | .ok (ts, s') =>
      let le := fun a b =>
        if ascending then !(svLt (sortValOf sortBy b) (sortValOf sortBy a))
        else !(svLt (sortValOf sortBy a) (sortValOf sortBy b))
      .ok (ts.mergeSort le, s')

/- ------------------------------------------------------------------ -/
/- Command Grammar (src/command_parser.js, src/unnamed/part_002)       -/
/- ------------------------------------------------------------------ -/

/-- The closed set of values in the `COMMAND_TYPES` object. -/
inductive CommandType where
  | ADD_TODO
  | COMPLETE_TODO
  | INCOMPLETE_TODO
  | TOGGLE_TODO
  | DELETE_TODO
  | EDIT_TODO
  | LIST_TODOS
  | CLEAR_COMPLETED
  | FILTER_TODOS
  | HELP
  | EXIT
  | UNKNOWN
deriving DecidableEq

/-- Lookup in the `COMMAND_TYPES` object by key; `none` models the
JavaScript `undefined` for a missing key. -/
def commandTypeOf (name : Str) : Option CommandType :=
  (([("ADD_TODO".data, CommandType.ADD_TODO),
     ("COMPLETE_TODO".data, CommandType.COMPLETE_TODO),
     ("INCOMPLETE_TODO".data, CommandType.INCOMPLETE_TODO),
     ("TOGGLE_TODO".data, CommandType.TOGGLE_TODO),
     ("DELETE_TODO".data, CommandType.DELETE_TODO),
     ("EDIT_TODO".data, CommandType.EDIT_TODO),
     ("LIST_TODOS".data, CommandType.LIST_TODOS),
     ("CLEAR_COMPLETED".data, CommandType.CLEAR_COMPLETED),
     ("FILTER_TODOS".data, CommandType.FILTER_TODOS),
     ("HELP".data, CommandType.HELP),
     ("EXIT".data, CommandType.EXIT),
     ("UNKNOWN".data, CommandType.UNKNOWN)] :
    List (Str × CommandType)).find? (fun p => p.1 == name)).map (fun p => p.2)

/-- The `COMMAND_ALIASES` object: alias → pattern name. The names are
later looked up in `COMMAND_TYPES`, where most of them do not exist. -/
def COMMAND_ALIASES : List (Str × Str) :=
  [("a".data, "ADD".data), ("c".data, "COMPLETE".data), ("i".data, "INCOMPLETE".data),
   ("t".data, "TOGGLE".data), ("d".data, "DELETE".data), ("e".data, "EDIT".data),
   ("l".data, "LIST".data), ("cc".data, "CLEAR_COMPLETED".data), ("f".data, "FILTER".data),
   ("h".data, "HELP".data), ("x".data, "EXIT".data), ("s".data, "SEARCH".data),
   ("st".data, "STATS".data)]

/-- The command `payload` object; absent fields are `none`. -/
structure Payload where
  input : Option Str := none
  title : Option Str := none
  id : Option Nat := none
  filter : Option Str := none
  searchTerm : Option Str := none
  sortBy : Option Str := none
  ascending : Option Bool := none
deriving DecidableEq

/-- The command `meta` object. -/
structure CmdMeta where
  search : Bool := false
  stats : Bool := false
  sort : Bool := false
  error : Option Str := none
deriving DecidableEq

/-- A parsed command; `type := none` models the JavaScript `undefined`
produced when an alias maps to a name missing from `COMMAND_TYPES`. -/
structure Command where
  type : Option CommandType
  payload : Payload := {}
  meta : CmdMeta := {}
deriving DecidableEq

/-- Case-insensitive match of a lowercase literal `w` against the start
of `input`: on success, the matched prefix (original case) and the rest. -/
def kwSplit (w : Str) (input : Str) : Option (Str × Str) :=
  if toLowerStr (input.take w.length) = w then some (input.take w.length, input.drop w.length)
  else none

/-- Regex alternation `(w1|w2|...)` at the start of the pattern: try the
literals in order; the rest of the pattern must also match (backtracking
moves on to the next alternative otherwise). -/
def altMatch (ws : List Str) (restMatch : Str → Option α) (input : Str) :
    Option (Str × α) :=
  ws.findSome? fun w =>
    match kwSplit w input with
    | some (word, rest) => (restMatch rest).map (fun a => (word, a))
    | none => none

/-- Matches `\s+(.+)$` against the text after a keyword and returns the
`(.+)` capture. When everything after `\s+` would be empty, backtracking
lets `.` take the final whitespace character if it is not a line
terminator. -/
def tailCapture (rest : Str) : Option Str :=
  let ws := rest.takeWhile isSpaceChar
  let r := rest.dropWhile isSpaceChar
  if ws = [] then none
  else if r ≠ [] then
    if r.all isDotChar then some r else none
  else
    match ws.getLast? with
    | some c => if 2 ≤ ws.length then (if isDotChar c then some [c] else none) else none
    | none => none

/-- Matches `\s+(\d+)$` and returns the digit capture. -/
def digitsCapture (rest : Str) : Option Str :=
  let ws := rest.takeWhile isSpaceChar
  let r := rest.dropWhile isSpaceChar
  if ws = [] then none
  else if r ≠ [] && r.all isDigitChar then some r else none

/-- Matches `\s+(\d+)\s+(.+)$` (the EDIT arguments). -/
def idTitleCapture (rest : Str) : Option (Str × Str) :=
  let ws := rest.takeWhile isSpaceChar
  let r := rest.dropWhile isSpaceChar
  if ws = [] then none
  else
    let ds := r.takeWhile isDigitChar
    let r2 := r.dropWhile isDigitChar
    if ds = [] then none
    else (tailCapture r2).map (fun title => (ds, title))

/-- Matches `(?:\s+(all|active|completed))?$` (the LIST suffix). -/
def optFilterCapture (rest : Str) : Option (Option Str) :=
  if rest = [] then some none
  else
    let ws := rest.takeWhile isSpaceChar
    let r := rest.dropWhile isSpaceChar
    if ws = [] then none
    else if validViews.contains (toLowerStr r) then some (some r) else none

/-- Matches `\s+(all|active|completed)$` (the FILTER argument). -/
def filterCapture (rest : Str) : Option Str :=
  let ws := rest.takeWhile isSpaceChar
  let r := rest.dropWhile isSpaceChar
  if ws = [] then none
  else if validViews.contains (toLowerStr r) then some r else none

/-- Matches `$`: the keyword must be the whole input. -/
def endCapture (rest : Str) : Option Unit :=
  if rest = [] then some () else none

/-- Matches `(?:\s+(asc|desc))?$` (the SORT direction suffix). -/
def dirCapture (rest : Str) : Option (Option Str) :=
  if rest = [] then some none
  else
    let ws := rest.takeWhile isSpaceChar
    let r := rest.dropWhile isSpaceChar
    if ws = [] then none
    else if toLowerStr r = "asc".data || toLowerStr r = "desc".data then some (some r)
    else none

/-- Matches `\s+(id|title|date|status)(?:\s+(asc|desc))?$` (the SORT
arguments): the key capture and the optional direction capture. -/
def sortCapture (rest : Str) : Option (Str × Option Str) :=
  let ws := rest.takeWhile isSpaceChar
  let r := rest.dropWhile isSpaceChar
  if ws = [] then none
  else altMatch ["id".data, "title".data, "date".data, "status".data] dirCapture r

/-- The quote stripping applied to captured titles and search terms: the
regex `^"(.*)"$` removes one pair of surrounding double quotes (`.` does
not cross line terminators). -/
def stripQuotes (s : Str) : Str :=
  if 2 ≤ s.length then
    if s.head? == some '"' && s.getLast? == some '"' && (s.drop 1).dropLast.all isDotChar
    then (s.drop 1).dropLast
    else s
  else s

/-- The ADD arm of `COMMAND_PATTERNS`/`createCommandFromMatch`. -/
def matchADD (t : Str) : Option Command :=
  (altMatch ["add".data, "create".data, "new".data] tailCapture t).map fun m =>
    { type := some .ADD_TODO, payload := { title := some (stripQuotes (trimStr m.2)) } }

def matchCOMPLETE (t : Str) : Option Command :=
  (altMatch ["complete".data, "done".data, "finish".data, "check".data] digitsCapture t).map
    fun m => { type := some .COMPLETE_TODO, payload := { id := some (parseDigits m.2) } }

def matchINCOMPLETE (t : Str) : Option Command :=
  (altMatch ["incomplete".data, "notdone".data, "uncheck".data, "unfinish".data]
      digitsCapture t).map
    fun m => { type := some .INCOMPLETE_TODO, payload := { id := some (parseDigits m.2) } }

def matchTOGGLE (t : Str) : Option Command :=
  (altMatch ["toggle".data, "switch".data] digitsCapture t).map
    fun m => { type := some .TOGGLE_TODO, payload := { id := some (parseDigits m.2) } }

def matchDELETE (t : Str) : Option Command :=
  (altMatch ["delete".data, "remove".data, "del".data, "rm".data] digitsCapture t).map
    fun m => { type := some .DELETE_TODO, payload := { id := some (parseDigits m.2) } }

def matchEDIT (t : Str) : Option Command :=
  (altMatch ["edit".data, "update".data, "change".data] idTitleCapture t).map fun m =>
    { type := some .EDIT_TODO
      payload := { id := some (parseDigits m.2.1)
                   title := some (stripQuotes (trimStr m.2.2)) } }

/-- The LIST arm: `args[1] || 'all'`, lowercased. -/
def matchLIST (t : Str) : Option Command :=
  (altMatch ["list".data, "show".data, "view".data, "ls".data] optFilterCapture t).map
    fun m =>
      { type := some .LIST_TODOS
        payload := { filter := some (toLowerStr (m.2.getD ("all".data))) } }

def matchCLEAR_COMPLETED (t : Str) : Option Command :=
  (altMatch ["clear".data, "clean".data, "clearcompleted".data, "clear-done".data,
             "clear_done".data] endCapture t).map
    fun _ => { type := some .CLEAR_COMPLETED }

/-- The FILTER arm. The source reads `args[0]` — the matched command word
(group 1), not the captured view — so the payload filter is the word
`filter`/`view` itself. -/
def matchFILTER (t : Str) : Option Command :=
  (altMatch ["filter".data, "view".data] filterCapture t).map fun m =>
    { type := some .FILTER_TODOS, payload := { filter := some (toLowerStr m.1) } }

def matchHELP (t : Str) : Option Command :=
  (altMatch ["help".data, "?".data, "--help".data, "-h".data] endCapture t).map
    fun _ => { type := some .HELP }

def matchEXIT (t : Str) : Option Command :=
  (altMatch ["exit".data, "quit".data, "q".data, "stop".data, "end".data, "bye".data]
      endCapture t).map
    fun _ => { type := some .EXIT }

def matchSEARCH (t : Str) : Option Command :=
  (altMatch ["search".data, "find".data] tailCapture t).map fun m =>
    { type := some .LIST_TODOS
      payload := { filter := some ("all".data)
                   searchTerm := some (stripQuotes (trimStr m.2)) }
      meta := { search := true } }

def matchSTATS (t : Str) : Option Command :=
  (altMatch ["stats".data, "statistics".data, "count".data] endCapture t).map
    fun _ =>
      { type := some .LIST_TODOS, payload := { filter := some ("all".data) }
        meta := { stats := true } }

/-- The SORT arm. The source reads `args[0]` (the word `sort`) as the
sort key and compares `args[1]` (the key capture) against `desc`, so
`sortBy` is always `sort` and `ascending` is always `true`. -/
def matchSORT (t : Str) : Option Command :=
  (altMatch ["sort".data] sortCapture t).map fun m =>
    { type := some .LIST_TODOS
      payload := { filter := some ("all".data)
                   sortBy := some (toLowerStr m.1)
                   ascending := some (m.2.1 != "desc".data) }
      meta := { sort := true } }

/-- The ordered walk over `COMMAND_PATTERNS` (object insertion order),
falling back to UNKNOWN. -/
def matchPatternList (t : Str) : Command :=
  match ([matchADD, matchCOMPLETE, matchINCOMPLETE, matchTOGGLE, matchDELETE,
          matchEDIT, matchLIST, matchCLEAR_COMPLETED, matchFILTER, matchHELP,
          matchEXIT, matchSEARCH, matchSTATS, matchSORT].findSome? (fun f => f t)) with
  | some c => c
  | none => { type := some .UNKNOWN, payload := { input := some t } }

/-- Models `parseCommand` (src/command_parser.js): empty input is
UNKNOWN; exact aliases are checked first against the whole lowercased
trimmed input; then the patterns in order. -/
def parseCommand (input : Str) : Command :=
  if trimStr input = [] then
    { type := some .UNKNOWN, payload := { input := some input }
      meta := { error := some ("Empty input".data) } }
  else
    let trimmedInput := trimStr input
    let lowerInput := toLowerStr trimmedInput
    match (COMMAND_ALIASES.find? (fun p => p.1 == lowerInput)).map (fun p => p.2) with
    | some name => { type := commandTypeOf name, payload := { input := some trimmedInput } }
    | none => matchPatternList trimmedInput

/- ------------------------------------------------------------------ -/
/- Dispatcher: CommandRouter (src/clear_completed.js, router section)  -/
/- ------------------------------------------------------------------ -/

/-- The `result` value a handler places in its route result. -/
inductive RouteOutcome where
  | addOut (todo : Todo) (nextId : Nat) (todosCount : Nat) (saveSuccess : Bool)
  | opOut (todo : Todo) (message : Str) (saveSuccess : Bool)
  | editOut (todo : Todo) (oldTitle : Str) (message : Str) (saveSuccess : Bool)
  | listOut (todos : List Todo) (stats : Option TodoStats) (filter : Option Str) (count : Nat)
  | clearOut (clearedTodos : List Todo) (count : Nat) (message : Str) (saveSuccess : Bool)
  | filterOut (todos : List Todo) (filter : Str) (message : Str)
  | msgOut (message : Str)
  | unknownOut (message : Str) (help : Str)
deriving DecidableEq

/-- The uniform `{ success, command, result | error }` shape returned by
`routeCommand`. -/
structure RouteResult where
  success : Bool
  command : CommandType
  outcome : Option RouteOutcome := none
  error : Option Str := none
deriving DecidableEq

def handleAddTodo (s : AppState) (cmd : Command) (save : Option SaveFn) (now : Str) :
    Except Str (RouteResult × AppState) :=
  match addTodoWithPersistence s (cmd.payload.title.getD []) save now with
  | .error e => .error e
  | .ok (r, s') =>
    .ok ({ success := true, command := .ADD_TODO
           outcome := some (.addOut r.todo r.nextId r.todosCount r.saveSuccess) }, s')

def handleCompleteTodo (s : AppState) (cmd : Command) (save : Option SaveFn) (now : Str) :
    Except Str (RouteResult × AppState) :=
  match completeTodoWithPersistence s (cmd.payload.id.getD 0) save now with
  | .error e => .error e
  | .ok (r, s') =>
    .ok ({ success := true, command := .COMPLETE_TODO
           outcome := some (.opOut r.todo r.message r.saveSuccess) }, s')

def handleIncompleteTodo (s : AppState) (cmd : Command) (save : Option SaveFn) (now : Str) :
    Except Str (RouteResult × AppState) :=
  match incompleteTodoWithPersistence s (cmd.payload.id.getD 0) save now with
  | .error e => .error e
  | .ok (r, s') =>
    .ok ({ success := true, command := .INCOMPLETE_TODO
           outcome := some (.opOut r.todo r.message r.saveSuccess) }, s')

def handleToggleTodo (s : AppState) (cmd : Command) (save : Option SaveFn) (now : Str) :
    Except Str (RouteResult × AppState) :=
  match toggleTodoWithPersistence s (cmd.payload.id.getD 0) save now with
  | .error e => .error e
  | .ok (r, s') =>
    .ok ({ success := true, command := .TOGGLE_TODO
           outcome := some (.opOut r.todo r.message r.saveSuccess) }, s')

def handleDeleteTodo (s : AppState) (cmd : Command) (save : Option SaveFn) :
    Except Str (RouteResult × AppState) :=
  match deleteTodoWithPersistence s (cmd.payload.id.getD 0) save with
  | .error e => .error e
  | .ok (r, s') =>
    .ok ({ success := true, command := .DELETE_TODO
           outcome := some (.opOut r.todo r.message r.saveSuccess) }, s')

def handleEditTodo (s : AppState) (cmd : Command) (save : Option SaveFn) (now : Str) :
    Except Str (RouteResult × AppState) :=
  match editTodoWithPersistence s (cmd.payload.id.getD 0) (cmd.payload.title.getD [])
      save now with
  | .error e => .error e
  | .ok (r, s') =>
    .ok ({ success := true, command := .EDIT_TODO
           outcome := some (.editOut r.todo r.oldTitle r.message r.saveSuccess) }, s')

/-- Models `handleListTodos`: search, sort or plain list, by the command
meta flags; absent payload fields fall back to the callee defaults. -/
def handleListTodos (s : AppState) (cmd : Command) :
    Except Str (RouteResult × AppState) :=
  let listed :=
    if cmd.meta.search then
      searchTodos s (cmd.payload.searchTerm.getD []) (cmd.payload.filter.getD ("all".data))
    else if cmd.meta.sort then
      sortTodos s (cmd.payload.sortBy.getD ("id".data)) (cmd.payload.ascending.getD true)
        (cmd.payload.filter.getD ("all".data))
    else
      listTodos s (cmd.payload.filter.getD ("all".data))
  match listed with
  | .error e => .error e
  | .ok (todos, s') =>
    let stats := if cmd.meta.stats then some (getTodoStats s') else none
    .ok ({ success := true, command := .LIST_TODOS
           outcome := some (.listOut todos stats cmd.payload.filter todos.length) }, s')

def handleClearCompleted (s : AppState) (save : Option SaveFn) :
    Except Str (RouteResult × AppState) :=
  let r := clearCompletedTodosWithPersistence s save
  .ok ({ success := true, command := .CLEAR_COMPLETED
         outcome := some (.clearOut r.1.clearedTodos r.1.count r.1.message r.1.saveSuccess) },
       r.2)

/-- Models `handleFilterTodos`: set the current view (throws on the
invalid view, caught by `routeCommand`), then list. -/
def handleFilterTodos (s : AppState) (cmd : Command) :
    Except Str (RouteResult × AppState) :=
  match AppState.setCurrentView s (cmd.payload.filter.getD []) with
  | .error e => .error e
  | .ok s' =>
    match listTodos s' (cmd.payload.filter.getD []) with
    | .error e => .error e
    | .ok (todos, s'') =>
      .ok ({ success := true, command := .FILTER_TODOS
             outcome := some (.filterOut todos (cmd.payload.filter.getD [])
               ("Now showing ".data ++ cmd.payload.filter.getD [] ++ " todos".data)) }, s'')

/-- The help text returned by `handleHelp` (content irrelevant to the
dispatch contract). -/
def helpText : Str :=
  "Todo Application Commands: add, complete, incomplete, toggle, delete, edit, list, clear, filter, search, stats, sort, help, exit".data

def handleHelp (s : AppState) : Except Str (RouteResult × AppState) :=
  .ok ({ success := true, command := .HELP, outcome := some (.msgOut helpText) }, s)

def handleExit (s : AppState) : Except Str (RouteResult × AppState) :=
  .ok ({ success := true, command := .EXIT
         outcome := some (.msgOut ("Exiting application...".data)) }, s)

/-- Models `handleUnknownCommand`: always reports failure, echoing the
offending input (`command.payload.input || 'No input provided'`). -/
def handleUnknownCommand (s : AppState) (cmd : Command) :
    Except Str (RouteResult × AppState) :=
  .ok ({ success := false, command := .UNKNOWN
         outcome := some (.unknownOut
           ("Unknown command: ".data ++
             (if cmd.payload.input.getD [] = [] then "No input provided".data
              else cmd.payload.input.getD []))
           ("Type \"help\" to see available commands".data)) }, s)

/-- The switch inside `routeCommand`'s try block. -/
def dispatchHandler (s : AppState) (ct : CommandType) (cmd : Command)
    (save : Option SaveFn) (now : Str) : Except Str (RouteResult × AppState) :=
  match ct with
  | .ADD_TODO => handleAddTodo s cmd save now
  | .COMPLETE_TODO => handleCompleteTodo s cmd save now
  | .INCOMPLETE_TODO => handleIncompleteTodo s cmd save now
  | .TOGGLE_TODO => handleToggleTodo s cmd save now
  | .DELETE_TODO => handleDeleteTodo s cmd save
  | .EDIT_TODO => handleEditTodo s cmd save now
  | .LIST_TODOS => handleListTodos s cmd
  | .CLEAR_COMPLETED => handleClearCompleted s save
  | .FILTER_TODOS => handleFilterTodos s cmd
  | .HELP => handleHelp s
  | .EXIT => handleExit s
  | .UNKNOWN => handleUnknownCommand s cmd

/-- Models `CommandRouter.routeCommand`: rejects a command without a
type (this throw happens outside the try block and propagates), then
runs the matching handler, converting a thrown error into a
`success:false` result. Every handler validates before mutating, so the
state returned with a caught error is the untouched input state. -/
def routeCommand (s : AppState) (cmd : Command) (save : Option SaveFn) (now : Str) :
    Except Str (RouteResult × AppState) :=
  match cmd.type with
  | none => .error ("Invalid command: command must have a type".data)
  | some ct =>
    match dispatchHandler s ct cmd save now with
    | .ok r => .ok r
    | .error e => .ok ({ success := false, command := ct, error := some e }, s)

/- ------------------------------------------------------------------ -/
/- Definitions used by the claim statements                            -/
/- ------------------------------------------------------------------ -/

/-- One Add operation applied to a state (title and timestamp); a
rejected title leaves the state unchanged. -/
def applyAdd (s : AppState) (p : Str × Str) : AppState :=
  match addTodo s p.1 p.2 with
  | .ok r => r.2
  | .error _ => s

/-- A sequence of Add operations applied to the initially empty
container (no items, `nextId = 1`). -/
def runAdds (ps : List (Str × Str)) : AppState := ps.foldl applyAdd initialAppState

/-- The largest id present in a todo list (0 when empty). -/
def maxIdOf (ts : List Todo) : Nat := (ts.map Todo.id).foldr max 0

/-- Frame property of a mutation targeting id `i`: same number of items,
every position holding an item with a different id is untouched, and the
id counter and view filter are unchanged. -/
def framePreserved (s s' : AppState) (i : Nat) : Prop :=
  s'.todos.length = s.todos.length ∧
  (∀ (j : Nat) (u : Todo), s.todos[j]? = some u → u.id ≠ i → s'.todos[j]? = some u) ∧
  s'.nextId = s.nextId ∧
  s'.currentView = s.currentView

/-- Shorthand for building a concrete todo in example states. -/
def mkTodo (id : Nat) (title : Str) (completed : Bool) : Todo :=
  { id := id, title := title, completed := completed
    createdAt := "2024-01-01T00:00:00.000Z".data
    updatedAt := "2024-01-01T00:00:00.000Z".data }

/-- A container holding a single incomplete item with id 1. -/
def c1State : AppState :=
  { todos := [mkTodo 1 ("buy milk".data) false], nextId := 2, currentView := "all".data }

/-- A container with three incomplete items titled b, a, c in insertion
order. -/
def c2State : AppState :=
  { todos := [mkTodo 1 ("b".data) false, mkTodo 2 ("a".data) false,
              mkTodo 3 ("c".data) false]
    nextId := 4, currentView := "all".data }

/-- A container that (insert enforcing no duplicate-ID check) holds two
items with the same id 1. -/
def c5DupState : AppState :=
  { todos := [mkTodo 1 ("first".data) false, mkTodo 1 ("second".data) false]
    nextId := 2, currentView := "all".data }

/-- A container used to witness the amended remove behaviour. -/
def c5WitnessState : AppState :=
  { todos := [mkTodo 1 ("keep".data) false, mkTodo 2 ("drop".data) true]
    nextId := 3, currentView := "all".data }

/-- A save callback that always throws. -/
def alwaysThrowSave : SaveFn := fun _ => .error ("disk full".data)

/-- A title whose untrimmed length is 256 but whose trimmed form is the
single character a. -/
def c8LongTitle : Str := 'a' :: List.replicate 255 ' '

/-- A container used to witness the completed operations frame
property. -/
def c10WitnessState : AppState :=
  { todos := [mkTodo 1 ("one".data) false, mkTodo 2 ("two".data) true]
    nextId := 3, currentView := "all".data }

/- ------------------------------------------------------------------ -/
/- Theorems                                                            -/
/- ------------------------------------------------------------------ -/

/-- C1. The claim predicts that parsing the input `c 1` yields a
Complete command with id 1 and that dispatching it completes the item.
On the code, aliases are matched only against the entire input and no
pattern accepts a bare `c`, so `c 1` parses as UNKNOWN and dispatch
fails, leaving the container (with its incomplete item 1) unchanged. -/
theorem parse_c_1_is_unknown_and_dispatch_fails :
    (parseCommand ("c 1".data)).type = some CommandType.UNKNOWN ∧
    (routeCommand c1State (parseCommand ("c 1".data)) none
        ("2024-01-02T00:00:00.000Z".data)).map
      (fun rs => (rs.1.success, rs.2)) = .ok (false, c1State) := by
  decide

/-- C2. The claim predicts that `sort title desc` carries sort key
`title`, descending, and that dispatch returns the items ordered c, b, a.
On the code, the SORT arm reads the matched word `sort` as the sort key
and compares the key capture `title` against `desc`, so the parsed
command carries `sortBy = "sort"`, `ascending = true`, and dispatching
it on the b, a, c container fails (invalid sort key), changing
nothing. -/
theorem parse_sort_title_desc_misreads_groups :
    (parseCommand ("sort title desc".data)).type = some CommandType.LIST_TODOS ∧
    (parseCommand ("sort title desc".data)).meta.sort = true ∧
    (parseCommand ("sort title desc".data)).payload.sortBy = some ("sort".data) ∧
    (parseCommand ("sort title desc".data)).payload.ascending = some true ∧
    (routeCommand c2State (parseCommand ("sort title desc".data)) none
        ("2024-01-02T00:00:00.000Z".data)).map
      (fun rs => (rs.1.success, rs.2)) = .ok (false, c2State) := by
  decide

/-- C3. The claim predicts that dispatching the command parsed from
`filter w` (w among all, active, completed) succeeds and sets the
container view to w. On the code, the FILTER arm stores the matched
command word `filter` itself as the view, so `setCurrentView` rejects it
and dispatch fails for all three words, leaving `currentView`
unchanged. (The accompanying statement that `setCurrentView` fails on
views outside the set holds; the dispatch half is what breaks.) -/
theorem parse_filter_word_dispatch_fails :
    ((parseCommand ("filter all".data)).payload.filter = some ("filter".data) ∧
      (routeCommand c1State (parseCommand ("filter all".data)) none
          ("2024-01-02T00:00:00.000Z".data)).map
        (fun rs => (rs.1.success, rs.2.currentView)) = .ok (false, "all".data)) ∧
    ((parseCommand ("filter active".data)).payload.filter = some ("filter".data) ∧
      (routeCommand c1State (parseCommand ("filter active".data)) none
          ("2024-01-02T00:00:00.000Z".data)).map
        (fun rs => (rs.1.success, rs.2.currentView)) = .ok (false, "all".data)) ∧
    ((parseCommand ("filter completed".data)).payload.filter = some ("filter".data) ∧
      (routeCommand c1State (parseCommand ("filter completed".data)) none
          ("2024-01-02T00:00:00.000Z".data)).map
        (fun rs => (rs.1.success, rs.2.currentView)) = .ok (false, "all".data)) := by
  decide

/-- C5 counterexample. On a container holding two items with id 1,
`removeTodo 1` removes both (the code filters out every match), so the
later duplicate does not survive as the claim predicts; the return value
is true. -/
theorem removeTodo_removes_all_duplicates :
    (AppState.removeTodo c5DupState 1).1 = true ∧
    (AppState.removeTodo c5DupState 1).2.todos = [] ∧
    (AppState.removeTodo c5DupState 1).2.todos ≠ [mkTodo 1 ("second".data) false] := by
  decide

set_option maxRecDepth 8000 in
/-- C8 counterexample. A title of the letter a followed by 255 spaces
has a non-empty trimmed form of length 1, yet the Add operation rejects
it because the 255-character bound is checked on the untrimmed title
(length 256). -/
theorem addTodo_rejects_long_untrimmed_title :
    trimStr c8LongTitle ≠ [] ∧
    (trimStr c8LongTitle).length ≤ 255 ∧
    validateTodoInput c8LongTitle ≠ [] ∧
    (addTodo initialAppState c8LongTitle ("2024-01-02T00:00:00.000Z".data)).isOk = false := by
  decide

lemma le_foldr_max_of_mem {l : List Nat} {n : Nat} (h : n ∈ l) : n ≤ l.foldr max 0 := by
  induction l with
  | nil => cases h
  | cons a l ih =>
    rcases List.mem_cons.mp h with rfl | h'
    · exact Nat.le_max_left _ _
    · exact Nat.le_trans (ih h') (Nat.le_max_right _ _)

lemma foldr_max_base (l : List Nat) (a : Nat) : l.foldr max a = max (l.foldr max 0) a := by
  induction l with
  | nil => simp
  | cons x l ih => simp only [List.foldr_cons, ih]; omega

lemma maxIdOf_append (ts : List Todo) (t : Todo) :
    maxIdOf (ts ++ [t]) = max (maxIdOf ts) t.id := by
  unfold maxIdOf
  rw [List.map_append, List.foldr_append]
  simp only [List.map_cons, List.map_nil, List.foldr_cons, List.foldr_nil]
  rw [foldr_max_base]
  omega

lemma applyAdd_inv (s : AppState) (p : Str × Str)
    (h : ((s.todos.map Todo.id).Nodup ∧ s.nextId = 1 + maxIdOf s.todos)) :
    (((applyAdd s p).todos.map Todo.id).Nodup ∧
      (applyAdd s p).nextId = 1 + maxIdOf (applyAdd s p).todos) := by
  unfold applyAdd
  cases hadd : addTodo s p.1 p.2 with
  | error e => exact h
  | ok r =>
    rw [addTodo] at hadd
    by_cases hv : validateTodoInput p.1 ≠ []
    · rw [if_pos hv] at hadd; cases hadd
    · rw [if_neg hv] at hadd
      cases hadd
      obtain ⟨hnd, hnext⟩ := h
      constructor
      · show ((s.todos ++ [Todo.make s.nextId (trimStr p.1) false none none p.2]).map
          Todo.id).Nodup
        rw [List.map_append, List.nodup_append]
        refine ⟨hnd, List.nodup_singleton _, ?_⟩
        intro n hn hn'
        have h1 : n ≤ maxIdOf s.todos := le_foldr_max_of_mem hn
        have h2 : n = s.nextId := by simpa using hn'
        omega
      · show (if s.nextId ≤ (Todo.make s.nextId (trimStr p.1) false none none p.2).id
              then (Todo.make s.nextId (trimStr p.1) false none none p.2).id + 1
              else s.nextId)
            = 1 + maxIdOf (s.todos ++ [Todo.make s.nextId (trimStr p.1) false none none p.2])
        rw [maxIdOf_append]
        have hid : (Todo.make s.nextId (trimStr p.1) false none none p.2).id = s.nextId := rfl
        rw [hid, if_pos (Nat.le_refl _)]
        omega

lemma runAdds_aux (ps : List (Str × Str)) : ∀ s : AppState,
    ((s.todos.map Todo.id).Nodup ∧ s.nextId = 1 + maxIdOf s.todos) →
    (((ps.foldl applyAdd s).todos.map Todo.id).Nodup ∧
      (ps.foldl applyAdd s).nextId = 1 + maxIdOf (ps.foldl applyAdd s).todos) := by
  induction ps with
  | nil => intro s h; simpa using h
  | cons p ps ih =>
    intro s h
    rw [List.foldl_cons]
    exact ih _ (applyAdd_inv s p h)

/-- C4. For every sequence of Add operations applied to the initially
empty container, no two items share an id and `nextId` is one plus the
largest id present (one when the container is empty, since `maxIdOf`
defaults to zero). -/
theorem runAdds_ids_nodup_and_nextId_eq :
    ∀ ps : List (Str × Str),
      (((runAdds ps).todos.map Todo.id).Nodup ∧
        (runAdds ps).nextId = 1 + maxIdOf (runAdds ps).todos) := by
  intro ps
  exact runAdds_aux ps initialAppState (by constructor <;> simp [initialAppState, maxIdOf])

lemma filter_length_lt_iff {α : Type} (p : α → Bool) (l : List α) :
    (l.filter p).length < l.length ↔ ∃ x ∈ l, ¬ p x := by
  induction l with
  | nil => simp
  | cons a l ih =>
    by_cases h : p a
    · simp only [List.filter_cons, h, if_pos, List.length_cons]
      constructor
      · intro hlt
        obtain ⟨x, hx, hpx⟩ := ih.mp (by omega)
        exact ⟨x, List.mem_cons_of_mem _ hx, hpx⟩
      · intro ⟨x, hx, hpx⟩
        rcases List.mem_cons.mp hx with rfl | hx'
        · exact absurd h hpx
        · have := ih.mpr ⟨x, hx', hpx⟩; omega
    · simp only [List.filter_cons, h, List.length_cons]
      have hle := List.length_filter_le p l
      constructor
      · intro _; exact ⟨a, List.mem_cons_self _ _, by simp [h]⟩
      · intro _; simpa using Nat.lt_succ_of_le hle

/-- C5 amended. `removeTodo(id)` removes every item whose id matches
(not only the first): the result is the subsequence of items with a
different id, in their original order, with `nextId` and the view filter
unchanged, and the boolean reports whether at least one match existed. -/
theorem removeTodo_removes_every_match (s : AppState) (id : Nat) :
    (∀ t ∈ (AppState.removeTodo s id).2.todos, t.id ≠ id) ∧
    List.Sublist (AppState.removeTodo s id).2.todos s.todos ∧
    (∀ t ∈ s.todos, t.id ≠ id → t ∈ (AppState.removeTodo s id).2.todos) ∧
    ((AppState.removeTodo s id).1 = true ↔ ∃ t ∈ s.todos, t.id = id) ∧
    (AppState.removeTodo s id).2.nextId = s.nextId ∧
    (AppState.removeTodo s id).2.currentView = s.currentView := by
  refine ⟨?_, ?_, ?_, ?_, rfl, rfl⟩
  · intro t ht
    have := (List.mem_filter.mp ht).2
    simpa using this
  · exact List.filter_sublist s.todos
  · intro t ht hne
    exact List.mem_filter.mpr ⟨ht, by simpa using hne⟩
  · show decide _ = true ↔ _
    rw [decide_eq_true_eq, filter_length_lt_iff]
    constructor
    · rintro ⟨t, ht, hp⟩
      exact ⟨t, ht, by simpa using hp⟩
    · rintro ⟨t, ht, hp⟩
      exact ⟨t, ht, by simpa using hp⟩

/-- C5 amended, witness instance: removing id 2 from a container holding
ids 1 and 2. -/
theorem removeTodo_removes_every_match_witness :
    (∀ t ∈ (AppState.removeTodo c5WitnessState 2).2.todos, t.id ≠ 2) ∧
    List.Sublist (AppState.removeTodo c5WitnessState 2).2.todos c5WitnessState.todos ∧
    (∀ t ∈ c5WitnessState.todos, t.id ≠ 2 →
      t ∈ (AppState.removeTodo c5WitnessState 2).2.todos) ∧
    ((AppState.removeTodo c5WitnessState 2).1 = true ↔
      ∃ t ∈ c5WitnessState.todos, t.id = 2) ∧
    (AppState.removeTodo c5WitnessState 2).2.nextId = c5WitnessState.nextId ∧
    (AppState.removeTodo c5WitnessState 2).2.currentView = c5WitnessState.currentView :=
  removeTodo_removes_every_match c5WitnessState 2

/-- C6. When the persistence callback throws on every call, dispatching
an Add command with a valid title still returns a successful result
whose payload reports the save as unsuccessful, and the new item is
retained in the in-memory container: the persistence failure never
surfaces as a failed command result. -/
theorem add_dispatch_succeeds_despite_save_failure (s : AppState) (title now : Str)
    (save : SaveFn)
    (hvalid : validateTodoInput title = [])
    (hthrow : ∀ st : AppState, ∃ e, save st = .error e) :
    ∃ (t : Todo) (s' : AppState),
      routeCommand s { type := some .ADD_TODO, payload := { title := some title } }
          (some save) now =
        .ok ({ success := true, command := .ADD_TODO
               outcome := some (.addOut t s'.nextId s'.todos.length false) }, s') ∧
      s'.todos = s.todos ++ [t] := by
  refine ⟨Todo.make s.nextId (trimStr title) false none none now,
    AppState.addTodo s (Todo.make s.nextId (trimStr title) false none none now), ?_, rfl⟩
  obtain ⟨e, he⟩ :=
    hthrow (AppState.addTodo s (Todo.make s.nextId (trimStr title) false none none now))
  simp [routeCommand, dispatchHandler, handleAddTodo, addTodoWithPersistence, hvalid,
    runSave, he]

/-- C6 witness: adding `Buy milk` to the empty container under an
always-throwing save callback. -/
theorem add_dispatch_succeeds_despite_save_failure_witness :
    ∃ (t : Todo) (s' : AppState),
      routeCommand initialAppState
          { type := some .ADD_TODO, payload := { title := some ("Buy milk".data) } }
          (some alwaysThrowSave) ("2024-01-02T00:00:00.000Z".data) =
        .ok ({ success := true, command := .ADD_TODO
               outcome := some (.addOut t s'.nextId s'.todos.length false) }, s') ∧
      s'.todos = initialAppState.todos ++ [t] :=
  add_dispatch_succeeds_despite_save_failure initialAppState ("Buy milk".data)
    ("2024-01-02T00:00:00.000Z".data) alwaysThrowSave (by decide)
    (fun _ => ⟨"disk full".data, rfl⟩)

/-- C7. Serializing a container whose titles are non-empty and already
trimmed, whose `nextId` is at least 1, and whose view filter is one of
the three valid views, then loading the snapshot back, yields the same
sequence of items (same id, title and completed flag position by
position) and the same `nextId` and view filter. -/
theorem snapshot_roundtrip (s : AppState) (now : Str)
    (htrim : ∀ t ∈ s.todos, trimStr t.title = t.title)
    (_hne : ∀ t ∈ s.todos, t.title ≠ [])
    (hnext : 1 ≤ s.nextId)
    (hview : s.currentView ∈ validViews) :
    (AppState.fromObject (AppState.toJSON s) now).todos.map
        (fun t => (t.id, t.title, t.completed))
      = s.todos.map (fun t => (t.id, t.title, t.completed)) ∧
    (AppState.fromObject (AppState.toJSON s) now).nextId = s.nextId ∧
    (AppState.fromObject (AppState.toJSON s) now).currentView = s.currentView := by
  refine ⟨?_, ?_, ?_⟩
  · simp only [AppState.fromObject, AppState.toJSON, List.map_map]
    apply List.map_congr_left
    intro t ht
    simp only [Function.comp_apply]
    exact Prod.ext rfl (Prod.ext (htrim t ht) rfl)
  · have h0 : s.nextId ≠ 0 := by omega
    simp [AppState.fromObject, AppState.toJSON, h0]
  · have h0 : s.currentView ≠ [] := by
      simp only [validViews, List.mem_cons, List.not_mem_nil, or_false] at hview
      rcases hview with h | h | h <;> (rw [h]; decide)
    simp [AppState.fromObject, AppState.toJSON, h0]

/-- C7 witness: the round trip on a concrete two-item container. -/
theorem snapshot_roundtrip_witness :
    (AppState.fromObject (AppState.toJSON c10WitnessState) ("n".data)).todos.map
        (fun t => (t.id, t.title, t.completed))
      = c10WitnessState.todos.map (fun t => (t.id, t.title, t.completed)) ∧
    (AppState.fromObject (AppState.toJSON c10WitnessState) ("n".data)).nextId
      = c10WitnessState.nextId ∧
    (AppState.fromObject (AppState.toJSON c10WitnessState) ("n".data)).currentView
      = c10WitnessState.currentView :=
  snapshot_roundtrip c10WitnessState ("n".data) (by decide) (by decide) (by decide)
    (by decide)

lemma dropWhile_dropWhile (p : Char → Bool) (l : Str) :
    (l.dropWhile p).dropWhile p = l.dropWhile p := by
  cases hd : l.dropWhile p with
  | nil => simp
  | cons c l' =>
    have hw : l.dropWhile p ≠ [] := by rw [hd]; simp
    have hc : p ((l.dropWhile p).head hw) = false := List.head_dropWhile_not p l hw
    have hc' : p c = false := by
      have : (l.dropWhile p).head hw = c := by simp [hd]
      rwa [this] at hc
    simp [List.dropWhile_cons, hc']

lemma trimStr_idem (s : Str) : trimStr (trimStr s) = trimStr s := by
  unfold trimStr
  have h1 : ((s.dropWhile isSpaceChar).reverse.dropWhile isSpaceChar).reverse.dropWhile
      isSpaceChar
      = ((s.dropWhile isSpaceChar).reverse.dropWhile isSpaceChar).reverse := by
    cases hw : ((s.dropWhile isSpaceChar).reverse.dropWhile isSpaceChar).reverse with
    | nil => simp
    | cons c r =>
      have hpre : (c :: r) <+: s.dropWhile isSpaceChar := by
        rw [← hw]
        have hsuf : (s.dropWhile isSpaceChar).reverse.dropWhile isSpaceChar
            <:+ (s.dropWhile isSpaceChar).reverse := List.dropWhile_suffix _
        have := List.reverse_prefix.mpr hsuf
        simpa using this
      obtain ⟨tail, htail⟩ := hpre
      have hd : s.dropWhile isSpaceChar = c :: (r ++ tail) := by
        rw [← htail]; simp
      have hne : s.dropWhile isSpaceChar ≠ [] := by rw [hd]; simp
      have hc : isSpaceChar ((s.dropWhile isSpaceChar).head hne) = false :=
        List.head_dropWhile_not isSpaceChar s hne
      have hc' : isSpaceChar c = false := by
        have : (s.dropWhile isSpaceChar).head hne = c := by simp [hd]
        rwa [this] at hc
      simp [List.dropWhile_cons, hc']
  rw [h1, List.reverse_reverse, dropWhile_dropWhile]

/-- C8 amended. The Add operation fails exactly when the title trims to
the empty string or the untrimmed title exceeds 255 characters; on every
other title it succeeds, stores the trimmed title, and appends the new
item. (The original claim asserted acceptance whenever the trimmed form
is at most 255 characters; the bound is checked on the untrimmed
title.) -/
theorem addTodo_invalid_title_iff (s : AppState) (title now : Str) :
    match addTodo s title now with
    | .error _ => trimStr title = [] ∨ 255 < title.length
    | .ok r => (trimStr title ≠ [] ∧ title.length ≤ 255) ∧
        r.1.todo.title = trimStr title ∧ r.2.todos = s.todos ++ [r.1.todo] := by
  by_cases h1 : trimStr title = []
  · have hv : validateTodoInput title ≠ [] := by simp [validateTodoInput, h1]
    rw [addTodo, if_pos hv]
    exact Or.inl h1
  · by_cases h2 : 255 < title.length
    · have hv : validateTodoInput title ≠ [] := by
        simp [validateTodoInput, h1, h2]
      rw [addTodo, if_pos hv]
      exact Or.inr h2
    · have hv : ¬ validateTodoInput title ≠ [] := by
        simp [validateTodoInput, h1]
        omega
      rw [addTodo, if_neg hv]
      exact ⟨⟨h1, by omega⟩, trimStr_idem title, rfl⟩

lemma count_ge_two_of_head_last {l : Str} (h2 : 2 ≤ l.length)
    (hh : l.head? = some '"') (hl : l.getLast? = some '"') : 2 ≤ l.count '"' := by
  cases l with
  | nil => simp at hh
  | cons a l' =>
    have ha : a = '"' := by simpa using hh
    cases l' with
    | nil => simp at h2
    | cons b l'' =>
      have hl2 : (b :: l'').getLast? = some '"' := by
        rwa [List.getLast?_cons_cons] at hl
      obtain ⟨ys, hys⟩ := List.getLast?_eq_some_iff.mp hl2
      subst ha
      rw [List.count_cons_self, hys, List.count_append]
      simp

/-- C9. The quote stripping applied to captured titles is idempotent on
every string without an embedded quote pair, formalized as: at most one
double-quote character occurs strictly inside the string (away from the
first and last position). -/
theorem stripQuotes_idempotent (s : Str)
    (h : ((s.drop 1).dropLast).count '"' ≤ 1) :
    stripQuotes (stripQuotes s) = stripQuotes s := by
  by_cases hlen : 2 ≤ s.length
  · by_cases hcond : (s.head? == some '"' && s.getLast? == some '"'
        && (s.drop 1).dropLast.all isDotChar) = true
    · have hs : stripQuotes s = (s.drop 1).dropLast := by
        rw [stripQuotes, if_pos hlen, if_pos hcond]
      rw [hs]
      rw [stripQuotes]
      by_cases hlen2 : 2 ≤ ((s.drop 1).dropLast).length
      · rw [if_pos hlen2]
        have hfalse : ¬ (((s.drop 1).dropLast).head? == some '"'
            && ((s.drop 1).dropLast).getLast? == some '"'
            && (((s.drop 1).dropLast).drop 1).dropLast.all isDotChar) = true := by
          intro hb
          simp only [Bool.and_eq_true, beq_iff_eq] at hb
          have := count_ge_two_of_head_last hlen2 hb.1.1 hb.1.2
          omega
        rw [if_neg hfalse]
      · rw [if_neg hlen2]
    · have hs : stripQuotes s = s := by rw [stripQuotes, if_pos hlen, if_neg hcond]
      rw [hs]; exact hs
  · have hs : stripQuotes s = s := by rw [stripQuotes, if_neg hlen]
    rw [hs]; exact hs

/-- C9 witness: stripping a plainly quoted string twice. -/
theorem stripQuotes_idempotent_witness :
    ((("\"hi\"".data).drop 1).dropLast.count '"' ≤ 1) ∧
    stripQuotes (stripQuotes ("\"hi\"".data)) = stripQuotes ("\"hi\"".data) :=
  ⟨by decide, stripQuotes_idempotent ("\"hi\"".data) (by decide)⟩

lemma replaceFirstById_frame (t' : Todo) (l : List Todo) :
    (replaceFirstById t' l).2.length = l.length ∧
    ∀ (j : Nat) (u : Todo), l[j]? = some u → u.id ≠ t'.id →
      (replaceFirstById t' l).2[j]? = some u := by
  induction l with
  | nil => simp [replaceFirstById]
  | cons t rest ih =>
    by_cases h : t.id = t'.id
    · rw [replaceFirstById, if_pos (by simp [h])]
      refine ⟨by simp, ?_⟩
      intro j u hj hne
      cases j with
      | zero =>
        have hu : t = u := by simpa using hj
        exact absurd (hu ▸ h) hne
      | succ n => simpa using hj
    · rw [replaceFirstById, if_neg (by simp [h])]
      obtain ⟨ihl, ihf⟩ := ih
      refine ⟨by simpa using ihl, ?_⟩
      intro j u hj hne
      cases j with
      | zero => simpa using hj
      | succ n =>
        simp only [List.getElem?_cons_succ] at hj ⊢
        exact ihf n u hj hne

lemma updateTodo_frame (s : AppState) (t' : Todo) (i : Nat) (h : t'.id = i) :
    framePreserved s (AppState.updateTodo s t').2 i := by
  obtain ⟨hl, hf⟩ := replaceFirstById_frame t' s.todos
  refine ⟨hl, ?_, rfl, rfl⟩
  intro j u hj hne
  exact hf j u hj (by rw [h]; exact hne)

lemma findTodoById_of_mem (s : AppState) (i : Nat)
    (hmem : ∃ t ∈ s.todos, t.id = i) :
    ∃ t₀, AppState.findTodoById s i = some t₀ ∧ t₀.id = i := by
  have hsome : (s.todos.find? (fun t => t.id == i)).isSome := by
    rw [List.find?_isSome]
    obtain ⟨t, ht, hti⟩ := hmem
    exact ⟨t, ht, by simp [hti]⟩
  obtain ⟨t₀, hfind⟩ := Option.isSome_iff_exists.mp hsome
  refine ⟨t₀, hfind, ?_⟩
  have := List.find?_some hfind
  simpa using this

/-- C10. On a container with pairwise distinct (positive) item ids, the
Complete, Incomplete, Toggle and Edit (with a valid new title)
operations on a present id `i` succeed and mutate only the item with id
`i`: every position holding an item with a different id is unchanged
(hence the relative order of items is unchanged), and `nextId` and the
view filter are unchanged. -/
theorem mutations_touch_only_target (s : AppState) (i : Nat) (now newTitle : Str)
    (_hnodup : (s.todos.map Todo.id).Nodup)
    (hpos : 1 ≤ i)
    (hmem : ∃ t ∈ s.todos, t.id = i)
    (htitle : validateTodoInput newTitle = []) :
    (∃ r, completeTodo s i now = .ok r ∧ framePreserved s r.2 i) ∧
    (∃ r, incompleteTodo s i now = .ok r ∧ framePreserved s r.2 i) ∧
    (∃ r, toggleTodo s i now = .ok r ∧ framePreserved s r.2 i) ∧
    (∃ r, editTodo s i newTitle now = .ok r ∧ framePreserved s r.2 i) := by
  have hid : ¬ validateTodoId i ≠ [] := by simp [validateTodoId]; omega
  obtain ⟨t₀, hfind, ht₀⟩ := findTodoById_of_mem s i hmem
  refine ⟨?_, ?_, ?_, ?_⟩
  · have heq : completeTodo s i now =
        .ok ({ todo := Todo.complete t₀ now
               message := markedMsg (Todo.complete t₀ now).title ("complete".data) },
             (AppState.updateTodo s (Todo.complete t₀ now)).2) := by
      rw [completeTodo, if_neg hid, hfind]
    exact ⟨_, heq, updateTodo_frame s (Todo.complete t₀ now) i ht₀⟩
  · have heq : incompleteTodo s i now =
        .ok ({ todo := Todo.uncomplete t₀ now
               message := markedMsg (Todo.uncomplete t₀ now).title ("incomplete".data) },
             (AppState.updateTodo s (Todo.uncomplete t₀ now)).2) := by
      rw [incompleteTodo, if_neg hid, hfind]
    exact ⟨_, heq, updateTodo_frame s (Todo.uncomplete t₀ now) i ht₀⟩
  · have heq : toggleTodo s i now =
        .ok ({ todo := Todo.toggle t₀ now
               message := markedMsg (Todo.toggle t₀ now).title
                 (if t₀.completed then "incomplete".data else "complete".data) },
             (AppState.updateTodo s (Todo.toggle t₀ now)).2) := by
      rw [toggleTodo, if_neg hid, hfind]
    exact ⟨_, heq, updateTodo_frame s (Todo.toggle t₀ now) i ht₀⟩
  · have htr : trimStr newTitle ≠ [] := by
      intro he
      simp [validateTodoInput, he] at htitle
    have heq : editTodo s i newTitle now =
        .ok ({ todo := { t₀ with title := trimStr newTitle, updatedAt := now }
               oldTitle := t₀.title
               message := editMsg t₀.title
                 ({ t₀ with title := trimStr newTitle, updatedAt := now } : Todo).title },
             (AppState.updateTodo s
               { t₀ with title := trimStr newTitle, updatedAt := now }).2) := by
      simp only [editTodo, if_neg hid,
        if_neg (show ¬ validateTodoInput newTitle ≠ [] by simp [htitle]), hfind,
        Todo.updateTitle, if_neg htr]
    exact ⟨_, heq,
      updateTodo_frame s { t₀ with title := trimStr newTitle, updatedAt := now } i ht₀⟩

/-- C10 witness: completing, toggling and editing item 1 in a concrete
two-item container. -/
theorem mutations_touch_only_target_witness :
    (∃ r, completeTodo c10WitnessState 1 ("n".data) = .ok r ∧
      framePreserved c10WitnessState r.2 1) ∧
    (∃ r, incompleteTodo c10WitnessState 1 ("n".data) = .ok r ∧
      framePreserved c10WitnessState r.2 1) ∧
    (∃ r, toggleTodo c10WitnessState 1 ("n".data) = .ok r ∧
      framePreserved c10WitnessState r.2 1) ∧
    (∃ r, editTodo c10WitnessState 1 ("renamed".data) ("n".data) = .ok r ∧
      framePreserved c10WitnessState r.2 1) :=
  mutations_touch_only_target c10WitnessState 1 ("n".data) ("renamed".data)
    (by decide) (by decide) ⟨mkTodo 1 ("one".data) false, by decide, by decide⟩
    (by decide)

end TodoApp
